import Mathlib

/-!
Shallow embedding of `vpnctl.py`: a command-line tool that manages a named
VPN connection through the external `nmcli` tool and scrapes a provider's
server-list web page.  Pure Python functions become Lean functions; calls to
the external world (subprocess invocations, HTTP fetch, console input) are
modelled by an explicit `World` supplying their outcomes, and every external
command invocation is recorded in an event trace.  Python exceptions are
modelled with `Except PyErr`.
-/

deriving instance DecidableEq for Except

namespace Vpnctl

/-- Python exception values that the program can raise, abstracted by class.
`calledProcessError` carries the external tool's exit code
(subprocess.CalledProcessError.returncode); `nameError` carries the unbound
name that was looked up. -/
inductive PyErr where
  | calledProcessError (returncode : Int)
  | nameError (missing : String)
  | attributeError
  | indexError
  | valueError
  | eofError
deriving DecidableEq

/-- Result of get_servers_list for one table row: the dictionary
with keys "location" and "address" built in the row loop. -/
structure Server where
  location : String
  address : String
deriving DecidableEq

/-! ### Python string primitives

Implemented structurally over the character list so that every concrete
instance evaluates inside the kernel. -/

/-- Python str.strip(): remove leading and trailing whitespace. -/
def pyStrip (s : String) : String :=
  String.mk (((s.toList.dropWhile Char.isWhitespace).reverse.dropWhile
    Char.isWhitespace).reverse)

/-- Scanner for Python str.split(sep) over the character list.  Each step
consumes at least one character, so fuel bounds the recursion depth. -/
def pySplitAux (sep : List Char) : Nat → List Char → List Char → List (List Char)
  | 0, rest, acc => [acc.reverse ++ rest]
  | _ + 1, [], acc => [acc.reverse]
  | fuel + 1, c :: cs, acc =>
    if sep.isPrefixOf (c :: cs) then
      acc.reverse :: pySplitAux sep fuel ((c :: cs).drop sep.length) []
    else
      pySplitAux sep fuel cs (c :: acc)

/-- Python str.split(sep) for a non-empty separator: non-overlapping
left-to-right matches, empty pieces kept, [""] on the empty string. -/
def pySplit (s sep : String) : List String :=
  (pySplitAux sep.toList (s.toList.length + 1) s.toList []).map String.mk

/-! ### bs4 document model

`get_servers_list` only inspects: the first table, its tbody, the tbody's
rows, each row's td cells, a cell's child nodes, and a cell's `.string`.
We model exactly that much of the parsed HTML tree. -/

/-- A child node of a cell as seen through bs4's `.children`: an element tag
or a navigable text string. -/
inductive Node where
  | tag
  | text (s : String)
deriving DecidableEq

/-- Calling .strip() on a child node: defined on text strings
(Python str.strip, trimming surrounding whitespace), raises AttributeError
on an element tag, which has no .strip method. -/
def Node.strip : Node → Except PyErr String
  | .text s => .ok (pyStrip s)
  | .tag => .error .attributeError

/-- A td cell; `children` are its child nodes in document order. -/
structure Td where
  children : List Node
deriving DecidableEq

/-- bs4 `.string` of a cell: its single text child when the cell has exactly
one child and it is a text node, otherwise None. -/
def Td.string : Td → Option String
  | ⟨[Node.text s]⟩ => some s
  | _ => none

/-- A tr row; `tds` is the list returned by tr.find_all("td"). -/
structure Tr where
  tds : List Td
deriving DecidableEq

/-- A table; `tbody` is the first tbody (None when the table has none). -/
structure Table where
  tbody : Option (List Tr)
deriving DecidableEq

/-- A fetched HTML page; `tables` are its table elements in document order,
so `tables.head?` is soup.find("table"). -/
structure HtmlPage where
  tables : List Table
deriving DecidableEq

/-- Python list indexing l[i]: IndexError when out of range. -/
def pyIndex {α : Type} (l : List α) (i : Nat) : Except PyErr α :=
  match l.get? i with
  | some x => .ok x
  | none => .error .indexError

/-- Body of the row loop in get_servers_list (vpnctl.py lines 176-181):
location is the stripped third child of the first cell, address is the
stripped .string of the second cell, in Python evaluation order. -/
def parseRow (tr : Tr) : Except PyErr Server := do
  let td0 ← pyIndex tr.tds 0
  let child2 ← pyIndex td0.children 2
  let location ← child2.strip
  let td1 ← pyIndex tr.tds 1
  let address ←
    match td1.string with
    | some s => Except.ok (pyStrip s)
    | none => Except.error PyErr.attributeError
  pure { location := location, address := address }

/-- get_servers_list (vpnctl.py lines 155-183) applied to the already
fetched page.  soup.find("table") yields None when the page has no table and
the subsequent attribute access raises AttributeError; likewise for a table
with no tbody.  The row loop aborts at the first failing row. -/
def get_servers_list (page : HtmlPage) : Except PyErr (List Server) :=
  match page.tables.head? with
  | none => .error .attributeError
  | some table =>
    match table.tbody with
    | none => .error .attributeError
    | some trs => trs.mapM parseRow

/-- Python max() over a list of naturals: ValueError on an empty sequence. -/
def pyMax (l : List Nat) : Except PyErr Nat :=
  match l with
  | [] => .error .valueError
  | x :: xs => .ok (xs.foldl Nat.max x)

/-- Python str.ljust: pad on the right with spaces to the given width;
a string at least that long is returned unchanged (never truncated). -/
def ljust (s : String) (w : Nat) : String :=
  s ++ String.mk (List.replicate (w - s.length) ' ')

/-- print_servers_list (vpnctl.py lines 185-203), with the printed lines
returned as a list instead of written to stdout.  The second column width is
max over the location lengths, which raises ValueError on an empty list. -/
def print_servers_list (servers : List Server) : Except PyErr (List String) := do
  let first_column_width := "Number".length
  let second_column_width ← pyMax (servers.map (fun s => s.location.length))
  let header := ljust "Number" first_column_width ++ "\t" ++
    ljust "Location" second_column_width ++ "\t" ++ "Address"
  let rows := servers.enum.map (fun p =>
    ljust (Nat.repr (p.1 + 1)) first_column_width ++ "\t" ++
    ljust p.2.location second_column_width ++ "\t" ++ p.2.address)
  pure (header :: rows)

/-- Digit-string accumulator for pyInt?. -/
def digitsAux : List Char → Nat → Option Nat
  | [], acc => some acc
  | c :: cs, acc =>
    if c.isDigit then digitsAux cs (acc * 10 + (c.toNat - 48)) else none

/-- Value of a non-empty all-digit character list, none otherwise. -/
def digitsVal : List Char → Option Nat
  | [] => none
  | cs => digitsAux cs 0

/-- Python int(s) on a line of input: surrounding whitespace is ignored, an
optional sign precedes a non-empty run of decimal digits; any other shape
raises ValueError (modelled as none). -/
def pyInt? (s : String) : Option Int :=
  match (pyStrip s).toList with
  | '-' :: cs => (digitsVal cs).map (fun n => -(n : Int))
  | '+' :: cs => (digitsVal cs).map (fun n => (n : Int))
  | cs => (digitsVal cs).map (fun n => (n : Int))

/-- get_chosen_server (vpnctl.py lines 206-228) with the console modelled as
a list of input lines.  Returns the number of rejected attempts (each one
printing "Invalid server number" and re-prompting) paired with the selected
record; none models the inputs running out (input() raising EOFError). -/
def get_chosen_server (servers : List Server) : List String → Option (Nat × Server)
  | [] => none
  | line :: rest =>
    match pyInt? line with
    | none => (get_chosen_server servers rest).map (fun p => (p.1 + 1, p.2))
    | some n =>
      let server_number := n - 1
      if 0 ≤ server_number ∧ server_number < (servers.length : Int) then
        (servers.get? server_number.toNat).map (fun s => (0, s))
      else
        (get_chosen_server servers rest).map (fun p => (p.1 + 1, p.2))

/-! ### Connection controller (VpnConnection) over an explicit world

Each method returns the trace of external events it performs together with
its outcome.  A command invoked through subprocess.check_output always runs
(so it is always recorded in the trace); when its exit code is non-zero,
check_output raises CalledProcessError carrying that code. -/

/-- The constructor arguments of VpnConnection (vpnctl.py lines 20-29). -/
structure VpnConnection where
  name : String
  restart_delay_seconds : Nat
deriving DecidableEq

/-- The argparse namespace produced by parse_arguments (lines 129-153). -/
structure Args where
  connection : String
  disconnect : Bool
  url : Option String
  list : Bool
  verbose : Bool
  server_list_url : String

/-- An externally visible event: an external command invocation with its
argv, or a time.sleep of the given number of seconds. -/
inductive Event where
  | call (argv : List String)
  | sleep (seconds : Nat)
deriving DecidableEq

/-- The outside world: command-line arguments, the behaviour of the external
nmcli tool (exit code and stdout for a given argv), the outcome of the HTTP
fetch of the server-list page, and the lines available on standard input. -/
structure World where
  args : Args
  nmcli : List String → Int × String
  page : Except PyErr HtmlPage
  inputs : List String

/-- subprocess.check_output: the command runs (recorded in the trace) and
its output is returned on exit code 0; a non-zero exit code raises
CalledProcessError with that returncode. -/
def check_output (w : World) (argv : List String) : List Event × Except PyErr String :=
  let r := w.nmcli argv
  ([Event.call argv],
    if r.1 = 0 then Except.ok r.2 else Except.error (PyErr.calledProcessError r.1))

/-- argv of the GENERAL.STATE query in is_connected (lines 38-42). -/
def stateArgv (name : String) : List String :=
  ["nmcli", "-g", "GENERAL.STATE", "con", "show", name]

/-- argv of nmcli con up (line 53). -/
def upArgv (name : String) : List String := ["nmcli", "con", "up", name]

/-- argv of nmcli con down (line 63). -/
def downArgv (name : String) : List String := ["nmcli", "con", "down", name]

/-- is_connected (vpnctl.py lines 31-43): query GENERAL.STATE and report
whether the output is non-empty. -/
def is_connected (c : VpnConnection) (w : World) : List Event × Except PyErr Bool :=
  let r := check_output w (stateArgv c.name)
  (r.1, r.2.map (fun out => decide (0 < out.length)))

/-- connect (vpnctl.py lines 45-53): bring the connection up, optionally
only after a fresh is_connected check reports it down.  Python's
short-circuit `not only_if_disconnected or not self.is_connected()` performs
the state query only when the flag is set. -/
def connect (c : VpnConnection) (w : World) (only_if_disconnected : Bool) :
    List Event × Except PyErr Unit :=
  if only_if_disconnected then
    let q := is_connected c w
    match q.2 with
    | .error e => (q.1, .error e)
    | .ok true => (q.1, .ok ())
    | .ok false =>
      let u := check_output w (upArgv c.name)
      (q.1 ++ u.1, u.2.map (fun _ => ()))
  else
    let u := check_output w (upArgv c.name)
    (u.1, u.2.map (fun _ => ()))

/-- disconnect (vpnctl.py lines 55-63): symmetric to connect. -/
def disconnect (c : VpnConnection) (w : World) (only_if_connected : Bool) :
    List Event × Except PyErr Unit :=
  if only_if_connected then
    let q := is_connected c w
    match q.2 with
    | .error e => (q.1, .error e)
    | .ok false => (q.1, .ok ())
    | .ok true =>
      let d := check_output w (downArgv c.name)
      (q.1 ++ d.1, d.2.map (fun _ => ()))
  else
    let d := check_output w (downArgv c.name)
    (d.1, d.2.map (fun _ => ()))

/-- restart (vpnctl.py lines 65-71): when is_connected reports true,
disconnect, sleep restart_delay_seconds, then connect; otherwise connect
directly.  The inner disconnect() and connect() calls pass no flag, so they
act unconditionally without further state queries. -/
def restart (c : VpnConnection) (w : World) : List Event × Except PyErr Unit :=
  let q := is_connected c w
  match q.2 with
  | .error e => (q.1, .error e)
  | .ok true =>
    let d := disconnect c w false
    match d.2 with
    | .error e => (q.1 ++ d.1, .error e)
    | .ok _ =>
      let u := connect c w false
      (q.1 ++ d.1 ++ [Event.sleep c.restart_delay_seconds] ++ u.1, u.2)
  | .ok false =>
    let u := connect c w false
    (q.1 ++ u.1, u.2)

/-- set_data_item (vpnctl.py lines 85-92): append/overwrite one vpn.data
entry through nmcli con mod. -/
def set_data_item (c : VpnConnection) (w : World) (key value : String) :
    List Event × Except PyErr Unit :=
  let r := check_output w ["nmcli", "con", "mod", c.name, "+vpn.data", key ++ "=" ++ value]
  (r.1, r.2.map (fun _ => ()))

/-- set_remote_address (vpnctl.py lines 103-110). -/
def set_remote_address (c : VpnConnection) (w : World) (address : String) :
    List Event × Except PyErr Unit :=
  set_data_item c w "remote" address

/-- Whether an event is the GENERAL.STATE query used by is_connected (the
gate of restart), as opposed to an action on the connection. -/
def isStateQuery : Event → Bool
  | .call ("nmcli" :: "-g" :: _) => true
  | _ => false

/-- The action part of a trace: every event except state queries. -/
def observable (t : List Event) : List Event :=
  t.filter (fun e => !isStateQuery e)

/-- The body of main's try block (vpnctl.py lines 238-274, 280): the
command flow over the world, before the except clause.  The VpnConnection is
built with the default restart delay of 1 second.  Running out of input
lines models input() raising EOFError. -/
def mainBody (w : World) : Except PyErr Int :=
  let a := w.args
  let c : VpnConnection := ⟨a.connection, 1⟩
  if a.disconnect then
    match (disconnect c w true).2 with
    | .error e => .error e
    | .ok _ => .ok 0
  else if a.list then
    match w.page with
    | .error e => .error e
    | .ok page =>
      match get_servers_list page with
      | .error e => .error e
      | .ok servers =>
        match print_servers_list servers with
        | .error e => .error e
        | .ok _ => .ok 0
  else
    let addr : Except PyErr String :=
      match a.url with
      | some u => .ok u
      | none =>
        match w.page with
        | .error e => .error e
        | .ok page =>
          match get_servers_list page with
          | .error e => .error e
          | .ok servers =>
            match print_servers_list servers with
            | .error e => .error e
            | .ok _ =>
              match get_chosen_server servers w.inputs with
              | none => .error .eofError
              | some p => .ok p.2.address
    match addr with
    | .error e => .error e
    | .ok server_address =>
      match (set_remote_address c w server_address).2 with
      | .error e => .error e
      | .ok _ =>
        match (restart c w).2 with
        | .error e => .error e
        | .ok _ => .ok 0

/-- main (vpnctl.py lines 231-280): the try/except around the body catches
exactly subprocess.CalledProcessError and returns its returncode as main's
return value; every other exception propagates out of main. -/
def main (w : World) : Except PyErr Int :=
  match mainBody w with
  | .error (.calledProcessError n) => .ok n
  | .error e => .error e
  | .ok n => .ok n

/-- The process exit status of `sys.exit(main())` (vpnctl.py lines
283-284): main's return value when it returns, and 1 when an exception
escapes main (Python terminates with status 1 on an unhandled exception). -/
def program_exit (w : World) : Int :=
  match main w with
  | .ok n => n
  | .error _ => 1

/-! ### The vpn.data dictionary operations over a faithful manager

set_data_item / _get_data / get_data_item exercise nmcli's vpn.data store.
Following the stipulation in the round-trip property, the external manager
is modelled here as faithfully storing the written key/value pairs and
serializing them in its "key1 = value1, key2 = value2" format, with every
store invocation succeeding. -/

namespace Data

/-- The manager-side vpn.data dictionary of the connection: an ordered
association list with unique keys. -/
structure Mgr where
  data : List (String × String)
deriving DecidableEq

/-- Store a key/value pair: overwrite the existing entry for the key or
append a new one (nmcli's +vpn.data mutation semantics). -/
def updateEntry : List (String × String) → String → String → List (String × String)
  | [], k, v => [(k, v)]
  | p :: rest, k, v =>
    if p.1 = k then (k, v) :: rest else p :: updateEntry rest k v

/-- set_data_item (vpnctl.py lines 85-92) acting on the faithful manager. -/
def set_data_item (m : Mgr) (key value : String) : Mgr :=
  ⟨updateEntry m.data key value⟩

/-- The manager's serialization of the dictionary, as documented at
vpnctl.py line 125: "key1 = value1, key2 = value2". -/
def serialize (d : List (String × String)) : String :=
  match d.map (fun p => p.1 ++ " = " ++ p.2) with
  | [] => ""
  | e :: es => es.foldl (fun acc e2 => acc ++ ", " ++ e2) e

/-- Python dict() applied to a list of string lists: each element must have
exactly two items (otherwise ValueError), later keys overwrite earlier
ones. -/
def pyDict (l : List (List String)) : Except PyErr (List (String × String)) :=
  l.foldlM (fun acc entry =>
    match entry with
    | [k, v] => Except.ok (updateEntry acc k v)
    | _ => Except.error PyErr.valueError) []

/-- The method _get_data (vpnctl.py lines 112-126): read the serialized vpn.data text
from the manager, then
dict([entry.split(" = ") for entry in output.strip().split(", ")]). -/
def get_data (m : Mgr) : Except PyErr (List (String × String)) :=
  pyDict ((pySplit (pyStrip (serialize m.data)) ", ").map (fun entry => pySplit entry " = "))

/-- get_data_item (vpnctl.py lines 73-83).  Its body is
`return self._get_data()[item_key]` where the parameter is named `key`:
Python first evaluates self._get_data(), then looks up the unbound name
`item_key`, which raises NameError — so the subscript never happens. -/
def get_data_item (m : Mgr) (key : String) : Except PyErr String :=
  match get_data m with
  | .error e => .error e
  | .ok _ => .error (.nameError "item_key")

/-- get_remote_address (vpnctl.py lines 94-101). -/
def get_remote_address (m : Mgr) : Except PyErr String :=
  get_data_item m "remote"

/-- set_remote_address (vpnctl.py lines 103-110) acting on the faithful
manager. -/
def set_remote_address (m : Mgr) (address : String) : Mgr :=
  set_data_item m "remote" address

/-- The intended body of get_data_item, as its docstring and parameter name
describe it: look the given key up in the parsed dictionary.  Modelled from
the spec to exhibit the divergence of the shipped body; Python raises
KeyError on a missing key, folded into indexError here. -/
def get_data_item_intended (m : Mgr) (key : String) : Except PyErr String :=
  match get_data m with
  | .error e => .error e
  | .ok d =>
    match d.lookup key with
    | some v => .ok v
    | none => .error .indexError

end Data

/-! ### Row extractors and concrete fixtures -/

/-- The location a row yields per §4.2 of the spec: the trimmed text of the
third child node of the row's first cell (none when the row has no first
cell, no third child, or a non-text third child). -/
def rowLocation (r : Tr) : Option String :=
  (r.tds.get? 0).bind (fun td =>
    (td.children.get? 2).bind (fun n =>
      match n with
      | Node.text s => some (pyStrip s)
      | Node.tag => none))

/-- The address a row yields per §4.2 of the spec: the trimmed .string of
the row's second cell. -/
def rowAddress (r : Tr) : Option String :=
  (r.tds.get? 1).bind (fun td => (Td.string td).map pyStrip)

/-- The France row of the spec's example page: first cell holding flag,
separator and location text as its three children, second cell holding the
address text. -/
def exampleRow1 : Tr :=
  ⟨[⟨[Node.text "🇫🇷", Node.text " ", Node.text "France"]⟩,
    ⟨[Node.text "fr1.example.com"]⟩]⟩

/-- The Germany row of the spec's example page. -/
def exampleRow2 : Tr :=
  ⟨[⟨[Node.text "🇩🇪", Node.text " ", Node.text "Germany"]⟩,
    ⟨[Node.text "de1.example.com"]⟩]⟩

/-- The spec's two-row example page: one table whose tbody holds the France
and Germany rows. -/
def examplePage : HtmlPage := ⟨[⟨some [exampleRow1, exampleRow2]⟩]⟩

/-- The two server records the example page describes. -/
def exampleServers : List Server :=
  [⟨"France", "fr1.example.com"⟩, ⟨"Germany", "de1.example.com"⟩]

/-- Whether an Except computation returned a value. -/
def isOk {ε α : Type} : Except ε α → Bool
  | .ok _ => true
  | .error _ => false

/-- A page with no table element at all. -/
def noTablePage : HtmlPage := ⟨[]⟩

/-- A page whose first table's tbody has one row with no td cells. -/
def shortRowPage : HtmlPage := ⟨[⟨some [⟨[]⟩]⟩]⟩

/-- Arguments for a plain `vpnctl -d` run on the default connection. -/
def argsDisconnect : Args :=
  ⟨"PrivateVPN", true, none, false, false, "https://privatevpn.com/serverlist"⟩

/-- Arguments for a plain connect run with an explicit server url. -/
def argsConnect : Args :=
  ⟨"PrivateVPN", false, some "fr1.example.com", false, false,
   "https://privatevpn.com/serverlist"⟩

/-- A world whose nmcli reports a connected state and succeeds on every
command. -/
def connectedWorld : World :=
  ⟨argsConnect,
   fun argv => if argv = stateArgv "PrivateVPN" then (0, "activated") else (0, ""),
   Except.error PyErr.eofError, []⟩

/-- A world whose nmcli reports an empty state (disconnected) and succeeds
on every command. -/
def disconnectedWorld : World :=
  ⟨argsConnect, fun _ => (0, ""), Except.error PyErr.eofError, []⟩

/-- A world where the GENERAL.STATE query exits with code 7, as an unknown
connection name makes nmcli do. -/
def failWorld : World :=
  ⟨argsDisconnect,
   fun argv => if argv = stateArgv "PrivateVPN" then (7, "") else (0, ""),
   Except.error PyErr.eofError, []⟩

/-! ## Theorems -/

/-- A string has positive length exactly when it is not the empty string. -/
lemma length_pos_iff_ne_empty (s : String) : 0 < s.length ↔ s ≠ "" := by
  have hd : s ≠ "" ↔ s.data ≠ [] :=
    not_congr ⟨fun h2 => by rw [h2], fun h2 => String.ext h2⟩
  rw [hd]
  show 0 < s.data.length ↔ s.data ≠ []
  exact List.length_pos

/-- Claim C6: print_servers_list applied to an empty server sequence fails
(Python max() over the empty generator raises ValueError), rather than
silently producing output rows. -/
theorem C6_render_empty_fails :
    print_servers_list [] = Except.error PyErr.valueError := by decide

/-- Claim C5: print_servers_list on the two-record France/Germany example
produces the header row and two data rows with the Location column padded
via ljust to width 7 (the length of "Germany", the longest location, as
pyMax computes) in every row including the header; ljust with width 7 leaves
the 8-character header word "Location" unchanged, since ljust never
truncates. -/
theorem C5_render_table_width7 :
    print_servers_list exampleServers = Except.ok
      ["Number\tLocation\tAddress",
       "1     \tFrance \tfr1.example.com",
       "2     \tGermany\tde1.example.com"]
    ∧ pyMax (exampleServers.map (fun s => s.location.length)) = Except.ok 7
    ∧ ljust "France" 7 = "France "
    ∧ ljust "Germany" 7 = "Germany"
    ∧ ljust "Location" 7 = "Location" := by decide

/-- Claim C1 (evidence of the code bug): setRemoteAddress("1.2.3.4")
followed by getRemoteAddress() on a faithfully storing manager does not
return "1.2.3.4": get_data_item evaluates _get_data and then hits the
unbound name item_key, raising NameError; more generally no
set-then-get round trip ever returns a value for any address and any prior
dictionary. -/
theorem C1_roundtrip_crashes :
    Data.get_remote_address (Data.set_remote_address ⟨[]⟩ "1.2.3.4")
      = Except.error (PyErr.nameError "item_key")
    ∧ ∀ (m : Data.Mgr) (x : String),
        isOk (Data.get_remote_address (Data.set_remote_address m x)) = false := by
  refine ⟨by decide, ?_⟩
  intro m x
  unfold Data.get_remote_address Data.get_data_item
  cases Data.get_data (Data.set_remote_address m x) <;> rfl

/-- Claim C1 (the intended round trip): with the body its docstring
describes (looking up the key parameter), set-then-get does return the
written address. -/
theorem C1_intended_roundtrip :
    Data.get_data_item_intended (Data.set_remote_address ⟨[]⟩ "1.2.3.4") "remote"
      = Except.ok "1.2.3.4" := by decide

/-- Claim C10 counterexample: on the empty vpn.data dictionary,
get_data_item fails inside _get_data itself — dict([[""]]) raises
ValueError — before the unbound name item_key is ever reached, so not every
call raises a name-resolution error. -/
theorem C10_counterexample :
    Data.get_data_item ⟨[]⟩ "remote" = Except.error PyErr.valueError
    ∧ decide ((Except.error PyErr.valueError : Except PyErr String)
        = Except.error (PyErr.nameError "item_key")) = false := by decide

/-- Claim C10 as amended: get_data_item never returns a value for any
manager dictionary and any key (and hence neither does get_remote_address);
whenever _get_data itself succeeds — for instance on the dictionary holding
remote = 1.2.3.4 — the failure is precisely the NameError on the unbound
name item_key. -/
theorem C10_get_data_item_never_returns :
    (∀ (m : Data.Mgr) (key : String), isOk (Data.get_data_item m key) = false)
    ∧ (∀ (m : Data.Mgr) (key : String) (d : List (String × String)),
        Data.get_data m = Except.ok d →
        Data.get_data_item m key = Except.error (PyErr.nameError "item_key"))
    ∧ (∀ (m : Data.Mgr), isOk (Data.get_remote_address m) = false)
    ∧ Data.get_data_item ⟨[("remote", "1.2.3.4")]⟩ "remote"
        = Except.error (PyErr.nameError "item_key") := by
  refine ⟨?_, ?_, ?_, by decide⟩
  · intro m key
    unfold Data.get_data_item
    cases Data.get_data m <;> rfl
  · intro m key d h
    unfold Data.get_data_item
    rw [h]
  · intro m
    unfold Data.get_remote_address Data.get_data_item
    cases Data.get_data m <;> rfl

/-- Witness for C10's amended theorem at the one-entry dictionary. -/
theorem C10_get_data_item_never_returns_witness :
    Data.get_data_item ⟨[("remote", "1.2.3.4")]⟩ "remote"
      = Except.error (PyErr.nameError "item_key") :=
  C10_get_data_item_never_returns.2.1 ⟨[("remote", "1.2.3.4")]⟩ "remote"
    [("remote", "1.2.3.4")] (by decide)

/-- Claim C3: when the manager's GENERAL.STATE query for the connection
succeeds with output s, is_connected returns true exactly when s is
non-empty. -/
theorem C3_is_connected_iff_nonempty_state (c : VpnConnection) (w : World) (s : String)
    (h : w.nmcli (stateArgv c.name) = (0, s)) :
    (is_connected c w).2 = Except.ok true ↔ s ≠ "" := by
  unfold is_connected check_output
  rw [h]
  show Except.ok (decide (0 < s.length)) = Except.ok true ↔ s ≠ ""
  rw [← length_pos_iff_ne_empty]
  constructor
  · intro hq
    exact of_decide_eq_true (Except.ok.inj hq)
  · intro hq
    rw [decide_eq_true hq]

/-- Witness for C3 in a world whose state query returns "activated". -/
theorem C3_is_connected_iff_nonempty_state_witness :
    (is_connected ⟨"PrivateVPN", 1⟩ connectedWorld).2 = Except.ok true :=
  (C3_is_connected_iff_nonempty_state ⟨"PrivateVPN", 1⟩ connectedWorld "activated"
    (by decide)).mpr (by decide)

/-- Claim C7: an input line that fails integer parsing, or whose 1-based
value falls outside the list, makes get_chosen_server print an error and
retry on the remaining input (never failing); and on the two-record example
list the inputs "abc", "0", "5", "2" produce exactly three rejections and
then the record at zero-based index 1. -/
theorem C7_prompt_retries :
    (∀ (servers : List Server) (line : String) (rest : List String),
      (pyInt? line = none ∨
        ∃ n, pyInt? line = some n
          ∧ ¬(0 ≤ n - 1 ∧ n - 1 < (servers.length : Int))) →
      get_chosen_server servers (line :: rest)
        = (get_chosen_server servers rest).map (fun p => (p.1 + 1, p.2)))
    ∧ get_chosen_server exampleServers ["abc", "0", "5", "2"]
        = some (3, ⟨"Germany", "de1.example.com"⟩) := by
  refine ⟨?_, by decide⟩
  intro servers line rest h
  rcases h with h | ⟨n, hn, hout⟩
  · simp only [get_chosen_server, h]
  · simp only [get_chosen_server, hn]
    exact if_neg hout

/-- Witness for C7's retry step on the non-numeric input "abc". -/
theorem C7_prompt_retries_witness :
    get_chosen_server exampleServers ["abc"]
      = (get_chosen_server exampleServers []).map (fun p => (p.1 + 1, p.2)) :=
  C7_prompt_retries.1 exampleServers "abc" [] (Or.inl (by decide))

/-- Claim C2: when the state query reports a non-empty (connected) state
and the teardown command succeeds, restart performs exactly the action
sequence down, sleep of the configured delay, up, in that order; when the
state query reports the empty (disconnected) state, restart performs
exactly the single action up, with no down and no sleep.  The observable
projection drops only the GENERAL.STATE gate query itself. -/
theorem C2_restart_action_sequence (c : VpnConnection) (w : World) (s : String)
    (h : w.nmcli (stateArgv c.name) = (0, s)) :
    (s ≠ "" → (w.nmcli (downArgv c.name)).1 = 0 →
      observable (restart c w).1 =
        [Event.call (downArgv c.name), Event.sleep c.restart_delay_seconds,
         Event.call (upArgv c.name)])
    ∧ (s = "" → observable (restart c w).1 = [Event.call (upArgv c.name)]) := by
  constructor
  · intro hs hdown
    have hb : decide (0 < s.length) = true :=
      decide_eq_true ((length_pos_iff_ne_empty s).mpr hs)
    simp only [restart, is_connected, disconnect, connect, check_output, h, hb,
      hdown, Except.map, eq_self_iff_true, if_true, if_false,
      Bool.false_eq_true, ite_true, ite_false]
    rfl
  · intro hs
    have hb : decide (0 < s.length) = false := by
      rw [hs]
      rfl
    simp only [restart, is_connected, disconnect, connect, check_output, h, hb,
      Except.map, eq_self_iff_true, if_true, if_false,
      Bool.false_eq_true, ite_true, ite_false]
    rfl

/-- Witness for C2: the connected world yields down, sleep 1, up; the
disconnected world yields up alone. -/
theorem C2_restart_action_sequence_witness :
    observable (restart ⟨"PrivateVPN", 1⟩ connectedWorld).1 =
      [Event.call (downArgv "PrivateVPN"), Event.sleep 1,
       Event.call (upArgv "PrivateVPN")]
    ∧ observable (restart ⟨"PrivateVPN", 1⟩ disconnectedWorld).1 =
      [Event.call (upArgv "PrivateVPN")] :=
  ⟨(C2_restart_action_sequence ⟨"PrivateVPN", 1⟩ connectedWorld "activated"
      (by decide)).1 (by decide) (by decide),
   (C2_restart_action_sequence ⟨"PrivateVPN", 1⟩ disconnectedWorld ""
      (by decide)).2 rfl⟩

/-- Claim C9: when the body of main aborts because some external nmcli
invocation exited with a non-zero code n, the except clause returns exactly
n and sys.exit makes it the program's exit status, untranslated. -/
theorem C9_exit_code_propagated (w : World) (n : Int)
    (h : mainBody w = Except.error (PyErr.calledProcessError n)) :
    main w = Except.ok n ∧ program_exit w = n := by
  have hm : main w = Except.ok n := by
    unfold main
    rw [h]
  refine ⟨hm, ?_⟩
  unfold program_exit
  rw [hm]

/-- Witness for C9 in a world where the state query of the disconnect flow
exits with code 7: the program exits with status 7. -/
theorem C9_exit_code_propagated_witness :
    main failWorld = Except.ok 7 ∧ program_exit failWorld = 7 :=
  C9_exit_code_propagated failWorld 7 (by decide)

/-- Bind on a successful Except computation applies the continuation. -/
lemma exceptBind_ok {ε α β : Type} (x : α) (f : α → Except ε β) :
    (Except.ok x : Except ε α) >>= f = f x := rfl

/-- Bind on a failed Except computation propagates the failure. -/
lemma exceptBind_err {ε α β : Type} (e : ε) (f : α → Except ε β) :
    (Except.error e : Except ε α) >>= f = Except.error e := rfl

/-- A row on which both extractors are defined parses to exactly the record
they describe. -/
lemma parseRow_ok_of_extractors (r : Tr)
    (hl : (rowLocation r).isSome) (ha : (rowAddress r).isSome) :
    ∃ l a, rowLocation r = some l ∧ rowAddress r = some a
      ∧ parseRow r = Except.ok ⟨l, a⟩ := by
  unfold rowLocation at hl
  unfold rowAddress at ha
  cases h0 : r.tds.get? 0 with
  | none => rw [h0] at hl; simp at hl
  | some td0 =>
    rw [h0] at hl
    simp only [Option.some_bind] at hl
    cases h2 : td0.children.get? 2 with
    | none => rw [h2] at hl; simp at hl
    | some node =>
      rw [h2] at hl
      simp only [Option.some_bind] at hl
      cases node with
      | tag => simp at hl
      | text sl =>
        cases h1 : r.tds.get? 1 with
        | none => rw [h1] at ha; simp at ha
        | some td1 =>
          rw [h1] at ha
          simp only [Option.some_bind] at ha
          cases hstr : td1.string with
          | none => rw [hstr] at ha; simp at ha
          | some sa =>
            refine ⟨pyStrip sl, pyStrip sa, ?_, ?_, ?_⟩
            · simp only [rowLocation, h0, Option.some_bind, h2]
            · simp only [rowAddress, h1, Option.some_bind, hstr]
              rfl
            · simp only [parseRow, pyIndex, h0, h2, h1, hstr, Node.strip,
                exceptBind_ok, exceptBind_err]
              rfl

/-- Every row of a list whose extractors are all defined is parsed by the
row loop, in order, into exactly the records the extractors describe. -/
lemma mapM_parseRow_ok (rows : List Tr)
    (h : ∀ r ∈ rows, (rowLocation r).isSome ∧ (rowAddress r).isSome) :
    ∃ servers, rows.mapM parseRow = Except.ok servers ∧
      List.Forall₂ (fun r srv => rowLocation r = some srv.location
        ∧ rowAddress r = some srv.address) rows servers := by
  induction rows with
  | nil => exact ⟨[], rfl, List.Forall₂.nil⟩
  | cons r rs ih =>
    obtain ⟨hl, ha⟩ := h r (List.mem_cons_self r rs)
    obtain ⟨l, a, hl2, ha2, hp⟩ := parseRow_ok_of_extractors r hl ha
    obtain ⟨servers, hs, hf⟩ := ih (fun x hx => h x (List.mem_cons_of_mem r hx))
    refine ⟨⟨l, a⟩ :: servers, ?_, List.Forall₂.cons ⟨hl2, ha2⟩ hf⟩
    rw [List.mapM_cons, hp, hs]
    rfl

/-- Claim C4: on a page whose first table's tbody rows all have the
expected shape (a first cell with a text third child and a second cell with
a string), get_servers_list returns one record per row in row order, the
location being the stripped third child of the first cell and the address
the stripped string of the second cell; in particular the France/Germany
example page yields exactly its two records in order. -/
theorem C4_get_servers_list_rows (page : HtmlPage) (t : Table) (rows : List Tr)
    (ht : page.tables.head? = some t) (hb : t.tbody = some rows)
    (h : ∀ r ∈ rows, (rowLocation r).isSome ∧ (rowAddress r).isSome) :
    (∃ servers, get_servers_list page = Except.ok servers ∧
      List.Forall₂ (fun r srv => rowLocation r = some srv.location
        ∧ rowAddress r = some srv.address) rows servers)
    ∧ get_servers_list examplePage = Except.ok exampleServers := by
  refine ⟨?_, by decide⟩
  obtain ⟨servers, hs, hf⟩ := mapM_parseRow_ok rows h
  refine ⟨servers, ?_, hf⟩
  simp only [get_servers_list, ht, hb]
  exact hs

/-- Witness for C4 at the example page. -/
theorem C4_get_servers_list_rows_witness :
    ∃ servers, get_servers_list examplePage = Except.ok servers ∧
      List.Forall₂ (fun r srv => rowLocation r = some srv.location
        ∧ rowAddress r = some srv.address)
        [exampleRow1, exampleRow2] servers :=
  (C4_get_servers_list_rows examplePage ⟨some [exampleRow1, exampleRow2]⟩
    [exampleRow1, exampleRow2] rfl rfl (by decide)).1

/-- A row with fewer than the expected two cells always fails to parse. -/
lemma parseRow_err_of_short (r : Tr) (h : r.tds.length < 2) :
    ∃ e, parseRow r = Except.error e := by
  cases hr : r.tds with
  | nil =>
    refine ⟨PyErr.indexError, ?_⟩
    simp [parseRow, pyIndex, hr, exceptBind_ok, exceptBind_err]
  | cons td rest =>
    cases rest with
    | cons td2 rest2 =>
      rw [hr] at h
      simp at h
      omega
    | nil =>
      cases h2b : td.children[2]? with
      | none =>
        refine ⟨PyErr.indexError, ?_⟩
        simp [parseRow, pyIndex, hr, h2b, exceptBind_ok, exceptBind_err]
      | some node =>
        cases node with
        | tag =>
          refine ⟨PyErr.attributeError, ?_⟩
          simp [parseRow, pyIndex, hr, h2b, Node.strip, exceptBind_ok, exceptBind_err]
        | text sl =>
          refine ⟨PyErr.indexError, ?_⟩
          simp [parseRow, pyIndex, hr, h2b, Node.strip, exceptBind_ok, exceptBind_err]

/-- If any row of the list lacks the expected two cells, the whole row loop
fails (and returns no partial list). -/
lemma mapM_parseRow_err (rows : List Tr) (r : Tr) (hm : r ∈ rows)
    (h : r.tds.length < 2) :
    ∃ e, rows.mapM parseRow = Except.error e := by
  induction rows with
  | nil => cases hm
  | cons x xs ih =>
    rw [List.mapM_cons]
    rcases List.mem_cons.mp hm with hrx | hmem
    · subst hrx
      obtain ⟨e, he⟩ := parseRow_err_of_short r h
      refine ⟨e, ?_⟩
      rw [he]
      rfl
    · cases hp : parseRow x with
      | error e => exact ⟨e, rfl⟩
      | ok srv =>
        obtain ⟨e, he⟩ := ih hmem
        refine ⟨e, ?_⟩
        simp only [exceptBind_ok, he, exceptBind_err]

/-- Claim C8: get_servers_list fails — returning no partial or best-effort
list — when the page has no table (the None from soup.find gets an
attribute access), and likewise whenever some tbody row of the first table
lacks the expected two cells. -/
theorem C8_parse_failures (page : HtmlPage) :
    (page.tables = [] → get_servers_list page = Except.error PyErr.attributeError)
    ∧ (∀ t rows r, page.tables.head? = some t → t.tbody = some rows →
        r ∈ rows → r.tds.length < 2 →
        ∃ e, get_servers_list page = Except.error e) := by
  constructor
  · intro h
    unfold get_servers_list
    rw [h]
    rfl
  · intro t rows r ht hb hm hshort
    obtain ⟨e, he⟩ := mapM_parseRow_err rows r hm hshort
    refine ⟨e, ?_⟩
    simp only [get_servers_list, ht, hb]
    exact he

/-- Witness for C8 at a page with no table and a page whose only row has no
cells. -/
theorem C8_parse_failures_witness :
    get_servers_list noTablePage = Except.error PyErr.attributeError
    ∧ ∃ e, get_servers_list shortRowPage = Except.error e :=
  ⟨(C8_parse_failures noTablePage).1 rfl,
   (C8_parse_failures shortRowPage).2 ⟨some [⟨[]⟩]⟩ [⟨[]⟩] ⟨[]⟩ rfl rfl
     (by decide) (by decide)⟩

end Vpnctl


